import Mathlib

/-!
# Verification of reactorlib: RouterOutlet and the app-state engine

Shallow embedding of `src/packages/core/src/routing/RouterOutlet.js` and of the
app-state engine (Store / Entity / Reaction) described by the specification.

The RouterOutlet embedding mirrors the JSX expression of the source file:
a `Switch` whose children are produced by mapping over the route descriptor
list with the element index as React key.  JavaScript truthiness of the
`redirectTo` field (a string in this model; the empty string is falsy) is made
explicit.  Guard invocations are recorded in an evaluation trace, mirroring
the eager evaluation of `route.canEnter(_props)` inside `routes.map`.
-/

namespace ReactorLib

/-- A route descriptor, from the `routePropType` shape of RouterOutlet.js:
`{path, exact, strict, component, canEnter, fallback, redirectTo, push, routes}`.
`Props` is the type of RouterOutlet's rest props (what the guard receives),
`RP` the type of react-router render props, `C` the opaque payload of the
nested `routes` field (passed through to the component, never inspected),
and `K` the type of component identities. -/
structure RouteDesc (Props RP C K : Type) where
  path : Option String := none
  exact : Option Bool := none
  strict : Option Bool := none
  component : Option K := none
  canEnter : Option (Props → Bool) := none
  fallback : Option String := none
  redirectTo : Option String := none
  push : Option Bool := none
  routes : Option C := none

/-- The element tree produced by RouterOutlet (shallow embedding of the JSX
output): `Switch`, `Redirect`, `Route` (holding its `render` function),
`Suspense`, the empty `<div />` fallback, and a component instantiation
`<route.component {...props} routes={route.routes} />`. -/
inductive Elem (RP C K : Type) : Type where
  | divE : Elem RP C K
  | switchE (children : List (Elem RP C K)) : Elem RP C K
  | redirectE (key : Nat) (frm : Option String) (exact : Option Bool)
      (strict : Option Bool) (toDest : Option String) (push : Option Bool) : Elem RP C K
  | routeE (key : Nat) (path : Option String) (exact : Option Bool)
      (strict : Option Bool) (render : RP → Elem RP C K) : Elem RP C K
  | suspenseE (fallback : Elem RP C K) (child : Elem RP C K) : Elem RP C K
  | componentE (comp : Option K) (renderProps : RP) (childRoutes : Option C) : Elem RP C K

/-- JavaScript truthiness of an optional string value: `undefined` and the
empty string are falsy (`route.redirectTo ?` in the source). -/
def truthyStr : Option String → Bool
  | none => false
  | some s => !s.isEmpty

/-- Observer telling whether an element is a `<Redirect>` element. -/
def Elem.isRedirect {RP C K : Type} : Elem RP C K → Bool
  | .redirectE .. => true
  | _ => false

/-- First child of a `<Switch>` element, if any. -/
def firstChild {RP C K : Type} : Elem RP C K → Option (Elem RP C K)
  | .switchE (c :: _) => some c
  | _ => none

/-- Observer applying a `<Route>` element's `render` function to concrete
render props; yields the element react-router would mount on a match. -/
def renderAt {RP C K : Type} : Elem RP C K → RP → Option (Elem RP C K)
  | .routeE _ _ _ _ render, rp => some (render rp)
  | _, _ => none

variable {Props RP C K : Type}

/-- The body of `routes.map((route, index) => ...)` in RouterOutlet.js,
together with the list of guard invocations it performs (each entry is the
argument passed to `route.canEnter`).  `suspense` is the truthiness of the
`Suspense` binding imported from React; `placeholder` is RouterOutlet's
`placeholder` prop and `props` its remaining rest props `_props`. -/
def renderRoute (suspense : Bool) (placeholder : Option (Elem RP C K))
    (props : Props) (index : Nat) (route : RouteDesc Props RP C K) :
    Elem RP C K × List Props :=
  if truthyStr route.redirectTo then
    (.redirectE index route.path route.exact route.strict route.redirectTo route.push, [])
  else
    match route.canEnter with
    | some guard =>
      if !guard props then
        (.redirectE index route.path route.exact route.strict route.fallback route.push,
          [props])
      else
        (.routeE index route.path route.exact route.strict fun rp =>
          if suspense then
            .suspenseE (placeholder.getD .divE)
              (.componentE route.component rp route.routes)
          else
            .componentE route.component rp route.routes, [props])
    | none =>
      (.routeE index route.path route.exact route.strict fun rp =>
        if suspense then
          .suspenseE (placeholder.getD .divE)
            (.componentE route.component rp route.routes)
        else
          .componentE route.component rp route.routes, [])

/-- The children of the `<Switch>` RouterOutlet renders, one per route
descriptor, keyed by position. -/
def outletChildren (suspense : Bool) (routes : List (RouteDesc Props RP C K))
    (placeholder : Option (Elem RP C K)) (props : Props) : List (Elem RP C K) :=
  routes.enum.map fun ir => (renderRoute suspense placeholder props ir.1 ir.2).1

/-- All guard invocations performed while RouterOutlet evaluates, in order. -/
def outletGuardCalls (suspense : Bool) (routes : List (RouteDesc Props RP C K))
    (placeholder : Option (Elem RP C K)) (props : Props) : List Props :=
  (routes.enum.map fun ir => (renderRoute suspense placeholder props ir.1 ir.2).2).flatten

/-- The RouterOutlet component,
`({routes, placeholder, ..._props}) => <Switch>{routes.map(...)}</Switch>`,
returning the produced element tree together with the trace of guard
invocations performed during evaluation. -/
def routerOutlet (suspense : Bool) (routes : List (RouteDesc Props RP C K))
    (placeholder : Option (Elem RP C K)) (props : Props) :
    Elem RP C K × List Props :=
  (.switchE (outletChildren suspense routes placeholder props),
    outletGuardCalls suspense routes placeholder props)

/-- RouterOutlet with an ambient store state threaded through evaluation in
state-passing style.  The source component references no store: its body
mentions only its own props (`routes`, `placeholder`, `_props`) and module
imports, so the threaded state is neither read nor written. -/
def routerOutletSt (St : Type) (σ : St) (suspense : Bool)
    (routes : List (RouteDesc Props RP C K)) (placeholder : Option (Elem RP C K))
    (props : Props) : (Elem RP C K × List Props) × St :=
  (routerOutlet suspense routes placeholder props, σ)

/-! ## The app-state engine (Store / Entity / Reaction)

The engine's implementation (`createEntity`, `withStore`, dispatch and
notification) is not among the provided source files; only its documentation
is.  The definitions below are therefore modelled from the specification
(§3, §4.1, §4.2, §7, §8), with dispatch producing an explicit trace of state
replacements, notifications and effect invocations, and the asynchronous
`complete` continuation represented as an explicit pending-completion value
applied later. -/

/-- Modelled from the spec: the step of a reaction responsible for a state
replacement (§4.1) — used to tag trace events. -/
inductive StepKind : Type where
  | simple : StepKind
  | startup : StepKind
  | completion : StepKind
deriving DecidableEq

/-- Modelled from the spec: Reaction Descriptor, a tagged variant (§3):
`Simple {transition}` or `Async {startup?, effect, completion}`.  The
side-effecting `effect` body is external consumer code; it is represented by
an opaque identity of type `E`, and its invocation is recorded as a trace
event. -/
inductive Reaction (S P R E : Type) : Type where
  | Simple (transition : S → P → S) : Reaction S P R E
  | Async (startup : Option (S → P → S)) (effect : E)
      (completion : S → R → S) : Reaction S P R E

/-- Modelled from the spec: an Entity declaration — a mapping from action
name to Reaction Descriptor plus an initial state value (§6). -/
structure Entity (S P R E : Type) where
  reactions : List (String × Reaction S P R E)
  init : S

/-- Modelled from the spec: the Store — entity states plus the global
`actionRegistry` mapping action name to (entity name, Reaction Descriptor)
(§3). -/
structure Store (S P R E : Type) where
  states : List (String × S)
  registry : List (String × String × Reaction S P R E)

/-- Modelled from the spec: events observable during dispatch — a state
replacement of an entity (tagged with the responsible step), a notification
of that entity's subscribers (`notify(entityName)`, §4.2), and the invocation
of an async reaction's `effect` with the dispatched payload. -/
inductive Ev (S P E : Type) : Type where
  | replace (entity : String) (step : StepKind) (newState : S) : Ev S P E
  | notify (entity : String) : Ev S P E
  | effectInvoked (effect : E) (payload : P) : Ev S P E

/-- Modelled from the spec: construction error `DuplicateActionError`,
naming the conflicting action (§7). -/
inductive StoreError : Type where
  | duplicateAction (action : String) : StoreError
deriving DecidableEq

/-- Modelled from the spec: dispatch errors `UnknownActionError` and
`UnknownEntityError` (§7). -/
inductive DispatchError : Type where
  | unknownAction (action : String) : DispatchError
  | unknownEntity (entity : String) : DispatchError
deriving DecidableEq

/-- Modelled from the spec: an in-flight async reaction's single-shot
`complete` continuation — the owning entity and its `completion` step
(§4.1(c), §9). -/
structure Pending (S R : Type) : Type where
  entity : String
  completion : S → R → S

variable {S P R E : Type}

/-- All action names declared by an entity set, in declaration order. -/
def allActionNames (entities : List (String × Entity S P R E)) : List String :=
  (entities.map fun ne => ne.2.reactions.map Prod.fst).flatten

/-- First action name that occurs again later in the list, if any. -/
def findDuplicate : List String → Option String
  | [] => none
  | a :: rest => if a ∈ rest then some a else findDuplicate rest

/-- The global action registry built from the declared entities (§4.2). -/
def buildRegistry (entities : List (String × Entity S P R E)) :
    List (String × String × Reaction S P R E) :=
  (entities.map fun ne => ne.2.reactions.map fun ar => (ar.1, ne.1, ar.2)).flatten

/-- Modelled from the spec: `construct(entities)` — validates invariant I1,
failing with `DuplicateActionError` naming the conflicting action if two
entities declare the same action name; otherwise builds `actionRegistry` and
sets each entity's state to its declared initial value (§4.2). -/
def construct (entities : List (String × Entity S P R E)) :
    Except StoreError (Store S P R E) :=
  match findDuplicate (allActionNames entities) with
  | some a => .error (.duplicateAction a)
  | none => .ok
      { states := entities.map fun ne => (ne.1, ne.2.init)
        registry := buildRegistry entities }

/-- Current state of the named entity, if present. -/
def getState (σ : Store S P R E) (e : String) : Option S :=
  σ.states.lookup e

/-- Replace (wholesale, never in place) the named entity's state slice. -/
def setState (σ : Store S P R E) (e : String) (s : S) : Store S P R E :=
  { σ with states := σ.states.map fun p => if p.1 == e then (e, s) else p }

/-- Modelled from the spec: `dispatch(actionName, payload)` (§4.2, §4.1) —
looks up `actionRegistry[actionName]`, failing with `UnknownActionError` if
absent; a `Simple` reaction publishes exactly one replacement
`transition(currentState, payload)` followed by one notification; an `Async`
reaction first publishes and notifies the `startup` result (when present),
then invokes `effect`, returning the in-flight `complete` continuation to be
applied later.  The returned trace records the replacements, notifications
and effect invocation in execution order. -/
def dispatch (σ : Store S P R E) (a : String) (p : P) :
    Except DispatchError (Store S P R E × List (Ev S P E) × Option (Pending S R)) :=
  match σ.registry.lookup a with
  | none => .error (.unknownAction a)
  | some (e, r) =>
    match σ.states.lookup e with
    | none => .error (.unknownEntity e)
    | some s =>
      match r with
      | .Simple t =>
        .ok (setState σ e (t s p),
          [.replace e .simple (t s p), .notify e], none)
      | .Async startup eff comp =>
        match startup with
        | some su =>
          .ok (setState σ e (su s p),
            [.replace e .startup (su s p), .notify e, .effectInvoked eff p],
            some ⟨e, comp⟩)
        | none =>
          .ok (σ, [.effectInvoked eff p], some ⟨e, comp⟩)

/-- Modelled from the spec: the effect invoking `complete(result)` —
computes and publishes `completion(latestState, result)` for the owning
entity, with one notification (§4.1(c)).  For a store that still holds the
entity (always the case for constructed stores), the state is replaced and
subscribers are notified. -/
def completeRun (σ : Store S P R E) (c : Pending S R) (r : R) :
    Store S P R E × List (Ev S P E) :=
  match σ.states.lookup c.entity with
  | none => (σ, [])
  | some s =>
    (setState σ c.entity (c.completion s r),
      [.replace c.entity .completion (c.completion s r), .notify c.entity])

/-- Modelled from the spec: the entity states as seen by the caller after a
`dispatch` call — errors are surfaced synchronously with no state
replacement published (§7), so on error the caller's store is unchanged. -/
def stateAfterDispatch (σ : Store S P R E) (a : String) (p : P) : Store S P R E :=
  match dispatch (R := R) σ a p with
  | .ok (σ', _, _) => σ'
  | .error _ => σ

/-- Number of state replacements of entity `e` in a trace. -/
def countReplace (e : String) (tr : List (Ev S P E)) : Nat :=
  (tr.filter fun ev => match ev with
    | .replace e' _ _ => e' == e
    | _ => false).length

/-- The successive states published for entity `e` by a trace, in order. -/
def replacedStates (e : String) (tr : List (Ev S P E)) : List S :=
  tr.filterMap fun ev => match ev with
    | .replace e' _ s => if e' == e then some s else none
    | _ => none

/-- Number of notifications of entity `e`'s subscribers in a trace. -/
def countNotify (e : String) (tr : List (Ev S P E)) : Nat :=
  (tr.filter fun ev => match ev with
    | .notify e' => e' == e
    | _ => false).length

/-! ## Concrete fixtures for closed evaluations -/

/-- A guard that always admits. -/
def gTrue : Nat → Bool := fun _ => true

/-- A guard that always denies. -/
def gFalse : Nat → Bool := fun _ => false

/-- A guarded route with an admitting guard (spec §Protected Routes shape). -/
def routeGuarded : RouteDesc Nat Nat Unit Nat :=
  { path := some "/default", component := some 1, canEnter := some gTrue,
    fallback := some "/login" }

/-- A guarded route with a denying guard. -/
def routeDenied : RouteDesc Nat Nat Unit Nat :=
  { path := some "/default", component := some 1, canEnter := some gFalse,
    fallback := some "/login" }

/-- A plain component route, no guard and no redirect. -/
def routePlain : RouteDesc Nat Nat Unit Nat :=
  { path := some "/login", component := some 3 }

/-- A straightforward redirection route (spec §Defining Routes shape). -/
def routeRedirect : RouteDesc Nat Nat Unit Nat :=
  { path := some "/", exact := some true, redirectTo := some "/default",
    push := some true }

/-- A redirection route that also declares a guard. -/
def routeRedirectGuard : RouteDesc Nat Nat Unit Nat :=
  { path := some "/", redirectTo := some "/default", canEnter := some gTrue }

/-- A route whose `redirectTo` is specified but is the empty string, which is
falsy in JavaScript. -/
def routeEmptyRedirect : RouteDesc Nat Nat Unit Nat :=
  { path := some "/", component := some 2, redirectTo := some "" }

/-- A route with empty-string `redirectTo` and a guard. -/
def routeEmptyRedirectGuard : RouteDesc Nat Nat Unit Nat :=
  { path := some "/", component := some 2, redirectTo := some "",
    canEnter := some gTrue, fallback := some "/login" }

/-- Simple `increment` transition of the counter scenario (spec §8 A). -/
def incr : Int → Int → Int := fun s _ => s + 1

/-- Startup step of an async login reaction: mark pending. -/
def loginStartup : Int → Int → Int := fun s _ => s + 100

/-- Completion step of an async login reaction: adopt the result. -/
def loginCompletion : Int → Int → Int := fun _ r => r

/-- A concrete store with one simple and one async reaction registered. -/
def storeW : Store Int Int Int Nat :=
  { states := [("counter", 0), ("session", 0)]
    registry := [("increment", "counter", .Simple incr),
                 ("login", "session", .Async (some loginStartup) 0 loginCompletion)] }

/-- Two entities both declaring the action `save` (spec §8 Scenario C). -/
def dupEntities : List (String × Entity Int Int Int Nat) :=
  [("a", { reactions := [("save", .Simple incr)], init := 0 }),
   ("b", { reactions := [("save", .Simple incr)], init := 0 })]

/-! ## Helper lemmas -/

theorem outletChildren_getElem (suspense : Bool) (routes : List (RouteDesc Props RP C K))
    (placeholder : Option (Elem RP C K)) (props : Props) (i : Nat) :
    (outletChildren suspense routes placeholder props)[i]?
      = routes[i]?.map fun r => (renderRoute suspense placeholder props i r).1 := by
  simp only [outletChildren, List.getElem?_map, List.getElem?_enum]
  cases routes[i]? <;> rfl

theorem renderRoute_snd (suspense : Bool) (placeholder : Option (Elem RP C K))
    (props : Props) (i : Nat) (route : RouteDesc Props RP C K) :
    (renderRoute suspense placeholder props i route).2
      = if !truthyStr route.redirectTo && route.canEnter.isSome then [props] else [] := by
  unfold renderRoute
  cases h : truthyStr route.redirectTo
  · cases hc : route.canEnter
    · simp [hc]
    · rename_i g
      cases hg : g props <;> simp [hc, hg]
  · simp

theorem guardCalls_enumFrom (suspense : Bool) (placeholder : Option (Elem RP C K))
    (props : Props) (routes : List (RouteDesc Props RP C K)) (n : Nat) :
    ((routes.enumFrom n).map fun ir =>
        (renderRoute suspense placeholder props ir.1 ir.2).2).flatten
      = (routes.filter fun r => !truthyStr r.redirectTo && r.canEnter.isSome).map
          fun _ => props := by
  induction routes generalizing n with
  | nil => simp
  | cons r rest ih =>
    rw [List.enumFrom_cons, List.map_cons, List.flatten_cons, ih, renderRoute_snd,
      List.filter_cons]
    cases h : (!truthyStr r.redirectTo && r.canEnter.isSome) <;> simp [h]

theorem findDuplicate_eq_none_of_nodup :
    ∀ {l : List String}, l.Nodup → findDuplicate l = none := by
  intro l h
  induction l with
  | nil => rfl
  | cons a rest ih =>
    rw [List.nodup_cons] at h
    simp [findDuplicate, h.1, ih h.2]

theorem findDuplicate_of_not_nodup :
    ∀ {l : List String}, ¬ l.Nodup → ∃ a, findDuplicate l = some a ∧ 1 < l.count a := by
  intro l h
  induction l with
  | nil => exact absurd List.nodup_nil h
  | cons a rest ih =>
    by_cases hm : a ∈ rest
    · refine ⟨a, by simp [findDuplicate, hm], ?_⟩
      have h1 : 0 < rest.count a := List.count_pos_iff.mpr hm
      rw [List.count_cons_self]
      omega
    · have hrest : ¬ rest.Nodup := by
        intro hn
        exact h (List.nodup_cons.mpr ⟨hm, hn⟩)
      obtain ⟨b, hfd, hc⟩ := ih hrest
      refine ⟨b, by simp [findDuplicate, hm, hfd], ?_⟩
      have := List.count_cons b a rest
      rw [this]
      omega

/-! ## Claim theorems: RouterOutlet -/

/-- C5: for every route descriptor that defines a `canEnter` guard and no
`redirectTo`, RouterOutlet activates the route — renders a `<Route>` whose
`render` mounts the route's `component` — only if `canEnter(props)` evaluates
to true, and otherwise produces a redirect from the route's `path` to the
route's `fallback`. -/
theorem routerOutlet_canEnter_guard (suspense : Bool)
    (routes : List (RouteDesc Props RP C K)) (placeholder : Option (Elem RP C K))
    (props : Props) (i : Nat) (route : RouteDesc Props RP C K) (g : Props → Bool)
    (hi : routes[i]? = some route) (hred : route.redirectTo = none)
    (hg : route.canEnter = some g) :
    (routerOutlet suspense routes placeholder props).1
      = .switchE (outletChildren suspense routes placeholder props) ∧
    (g props = true →
      (outletChildren suspense routes placeholder props)[i]?
        = some (.routeE i route.path route.exact route.strict fun rp =>
            if suspense then
              .suspenseE (placeholder.getD .divE)
                (.componentE route.component rp route.routes)
            else
              .componentE route.component rp route.routes)) ∧
    (g props = false →
      (outletChildren suspense routes placeholder props)[i]?
        = some (.redirectE i route.path route.exact route.strict
            route.fallback route.push)) := by
  refine ⟨rfl, ?_, ?_⟩ <;> intro hgp <;> rw [outletChildren_getElem, hi] <;>
    simp [renderRoute, hred, hg, truthyStr, hgp]

/-- Witness for C5, at a concrete guarded route with an admitting guard. -/
theorem routerOutlet_canEnter_guard_witness :
    ([routeGuarded] : List (RouteDesc Nat Nat Unit Nat))[0]? = some routeGuarded ∧
    routeGuarded.redirectTo = none ∧ routeGuarded.canEnter = some gTrue ∧
    ((routerOutlet false [routeGuarded] none (0 : Nat)).1
        = .switchE (outletChildren false [routeGuarded] none 0) ∧
      (gTrue 0 = true →
        (outletChildren false [routeGuarded] none 0)[0]?
          = some (.routeE 0 routeGuarded.path routeGuarded.exact routeGuarded.strict
              fun rp =>
                if false then
                  .suspenseE (Option.getD none .divE)
                    (.componentE routeGuarded.component rp routeGuarded.routes)
                else
                  .componentE routeGuarded.component rp routeGuarded.routes)) ∧
      (gTrue 0 = false →
        (outletChildren false [routeGuarded] none 0)[0]?
          = some (.redirectE 0 routeGuarded.path routeGuarded.exact
              routeGuarded.strict routeGuarded.fallback routeGuarded.push))) :=
  ⟨rfl, rfl, rfl,
    routerOutlet_canEnter_guard false [routeGuarded] none 0 0 routeGuarded gTrue
      rfl rfl rfl⟩

/-- C6 counterexample: a route whose `redirectTo` is specified but equal to
the empty string.  JavaScript truthiness makes `route.redirectTo ?` false, so
RouterOutlet renders a `<Route>` for it instead of a `<Redirect>`. -/
theorem routerOutlet_redirectTo_empty_cex :
    routeEmptyRedirect.redirectTo = some "" ∧
    (firstChild (routerOutlet false [routeEmptyRedirect] none (0 : Nat)).1).map
        Elem.isRedirect = some false :=
  ⟨rfl, rfl⟩

/-- C6 (amended): for every route descriptor whose `redirectTo` is specified
and truthy (a non-empty string), RouterOutlet produces a redirection from the
route's `path` to `redirectTo`, carrying the route's `exact`, `strict` and
`push` settings, instead of rendering any component. -/
theorem routerOutlet_redirectTo_redirects (suspense : Bool)
    (routes : List (RouteDesc Props RP C K)) (placeholder : Option (Elem RP C K))
    (props : Props) (i : Nat) (route : RouteDesc Props RP C K)
    (hi : routes[i]? = some route) (hred : truthyStr route.redirectTo = true) :
    (routerOutlet suspense routes placeholder props).1
      = .switchE (outletChildren suspense routes placeholder props) ∧
    (outletChildren suspense routes placeholder props)[i]?
      = some (.redirectE i route.path route.exact route.strict
          route.redirectTo route.push) := by
  refine ⟨rfl, ?_⟩
  rw [outletChildren_getElem, hi]
  simp [renderRoute, hred]

/-- Witness for the amended C6, at a concrete redirection route. -/
theorem routerOutlet_redirectTo_redirects_witness :
    ([routeRedirect] : List (RouteDesc Nat Nat Unit Nat))[0]? = some routeRedirect ∧
    truthyStr routeRedirect.redirectTo = true ∧
    ((routerOutlet false [routeRedirect] none (0 : Nat)).1
        = .switchE (outletChildren false [routeRedirect] none 0) ∧
      (outletChildren false [routeRedirect] none 0)[0]?
        = some (.redirectE 0 routeRedirect.path routeRedirect.exact
            routeRedirect.strict routeRedirect.redirectTo routeRedirect.push)) :=
  ⟨rfl, rfl,
    routerOutlet_redirectTo_redirects false [routeRedirect] none 0 0 routeRedirect
      rfl rfl⟩

/-- C7: RouterOutlet is a pure declarative tree transformation — with an
ambient store state threaded through evaluation, the state is returned
untouched, and the produced tree (and guard-call trace) is independent of the
threaded store state, so two evaluations at the same routes and props yield
the same output tree. -/
theorem routerOutlet_pure (St : Type) (s₁ s₂ : St) (suspense : Bool)
    (routes : List (RouteDesc Props RP C K)) (placeholder : Option (Elem RP C K))
    (props : Props) :
    (routerOutletSt St s₁ suspense routes placeholder props).2 = s₁ ∧
    (routerOutletSt St s₁ suspense routes placeholder props).1
      = (routerOutletSt St s₂ suspense routes placeholder props).1 :=
  ⟨rfl, rfl⟩

/-- C8 counterexample: a route specifying both `redirectTo` (the empty
string, falsy) and a `canEnter` guard.  RouterOutlet does invoke the guard —
the evaluation trace records one call receiving the rest props — so the
redirection is not unconditional for every route specifying both fields. -/
theorem routerOutlet_redirect_guard_cex :
    routeEmptyRedirectGuard.redirectTo = some "" ∧
    routeEmptyRedirectGuard.canEnter = some gTrue ∧
    (routerOutlet false [routeEmptyRedirectGuard] none (5 : Nat)).2 = [5] :=
  ⟨rfl, rfl, rfl⟩

/-- C8 (amended): for every route descriptor that specifies a truthy
`redirectTo` (a non-empty string) together with a `canEnter` guard, the
`redirectTo` branch takes precedence: the produced child is the unconditional
`<Redirect>` and the guard is never invoked (the route contributes no guard
call to the evaluation trace). -/
theorem routerOutlet_redirect_skips_guard (suspense : Bool)
    (routes : List (RouteDesc Props RP C K)) (placeholder : Option (Elem RP C K))
    (props : Props) (i : Nat) (route : RouteDesc Props RP C K)
    (hi : routes[i]? = some route) (hred : truthyStr route.redirectTo = true) :
    (outletChildren suspense routes placeholder props)[i]?
      = some (.redirectE i route.path route.exact route.strict
          route.redirectTo route.push) ∧
    (renderRoute suspense placeholder props i route).2 = [] := by
  constructor
  · rw [outletChildren_getElem, hi]
    simp [renderRoute, hred]
  · simp [renderRoute, hred]

/-- Witness for the amended C8, at a redirection route that also declares a
guard. -/
theorem routerOutlet_redirect_skips_guard_witness :
    ([routeRedirectGuard] : List (RouteDesc Nat Nat Unit Nat))[0]?
        = some routeRedirectGuard ∧
    truthyStr routeRedirectGuard.redirectTo = true ∧
    ((outletChildren false [routeRedirectGuard] none (0 : Nat))[0]?
        = some (.redirectE 0 routeRedirectGuard.path routeRedirectGuard.exact
            routeRedirectGuard.strict routeRedirectGuard.redirectTo
            routeRedirectGuard.push) ∧
      (renderRoute false none (0 : Nat) 0 routeRedirectGuard).2 = []) :=
  ⟨rfl, rfl,
    routerOutlet_redirect_skips_guard false [routeRedirectGuard] none 0 0
      routeRedirectGuard rfl rfl⟩

/-- C9: on every evaluation, RouterOutlet invokes the `canEnter` guard of
every guarded route without a (truthy) `redirectTo` in the list — one call
per such route, in list order, regardless of whether the route's `path`
matches any location (the embedding takes no location at all: matching
happens later, inside the produced `<Switch>`) — and every call receives
RouterOutlet's own rest props `props` (its props with `routes` and
`placeholder` destructured away), never the route-specific render props. -/
theorem routerOutlet_guard_calls (suspense : Bool)
    (routes : List (RouteDesc Props RP C K)) (placeholder : Option (Elem RP C K))
    (props : Props) :
    (routerOutlet suspense routes placeholder props).2
      = (routes.filter fun r => !truthyStr r.redirectTo && r.canEnter.isSome).map
          fun _ => props := by
  have h := guardCalls_enumFrom suspense placeholder props routes 0
  simpa [routerOutlet, outletGuardCalls, List.enum] using h

/-- C10: for every component route (no `redirectTo`, guard passing or
absent), with the React `Suspense` binding available, the `<Route>`'s render
output wraps the route's component in a Suspense boundary whose fallback is
the `placeholder` prop when provided and an empty `<div />` otherwise. -/
theorem routerOutlet_suspense_wrap (routes : List (RouteDesc Props RP C K))
    (placeholder : Option (Elem RP C K)) (props : Props) (i : Nat)
    (route : RouteDesc Props RP C K) (rp : RP)
    (hi : routes[i]? = some route) (hred : route.redirectTo = none)
    (hg : ∀ g, route.canEnter = some g → g props = true) :
    ((outletChildren true routes placeholder props)[i]?.bind fun el =>
        renderAt el rp)
      = some (.suspenseE (placeholder.getD .divE)
          (.componentE route.component rp route.routes)) := by
  rw [outletChildren_getElem, hi]
  rcases hc : route.canEnter with _ | g
  · simp [renderRoute, hred, truthyStr, hc, renderAt]
  · have hgp := hg g hc
    simp [renderRoute, hred, truthyStr, hc, hgp, renderAt]

/-- Witness for C10, at a plain component route without a guard. -/
theorem routerOutlet_suspense_wrap_witness :
    ([routePlain] : List (RouteDesc Nat Nat Unit Nat))[0]? = some routePlain ∧
    routePlain.redirectTo = none ∧
    ((outletChildren true [routePlain] none (0 : Nat))[0]?.bind fun el =>
        renderAt el (7 : Nat))
      = some (.suspenseE (Option.getD none .divE)
          (.componentE routePlain.component 7 routePlain.routes)) :=
  ⟨rfl, rfl,
    routerOutlet_suspense_wrap [routePlain] none 0 0 routePlain 7 rfl rfl
      (fun _ h => nomatch h)⟩

/-! ## Claim theorems: app-state engine -/

/-- C1: for every Store and every `Simple` reaction registered under action
name `a` (owned by entity `e`, current state `s`), `dispatch(a, payload)`
results in exactly one state replacement of the owning entity, equal to
`transition(oldState, payload)`, and exactly one notification to the
subscribers of that entity. -/
theorem simple_dispatch_spec (σ : Store S P R E) (a e : String)
    (t : S → P → S) (s : S) (p : P)
    (hr : σ.registry.lookup a = some (e, .Simple t))
    (hs : σ.states.lookup e = some s) :
    ∃ tr : List (Ev S P E),
      dispatch σ a p = .ok (setState σ e (t s p), tr, none) ∧
      countReplace e tr = 1 ∧
      replacedStates e tr = [t s p] ∧
      countNotify e tr = 1 := by
  refine ⟨[.replace e .simple (t s p), .notify e], ?_, ?_, ?_, ?_⟩ <;>
    simp [dispatch, hr, hs, countReplace, replacedStates, countNotify]

/-- Witness for C1, at the concrete `increment` action of `storeW`. -/
theorem simple_dispatch_spec_witness :
    storeW.registry.lookup "increment" = some ("counter", .Simple incr) ∧
    storeW.states.lookup "counter" = some 0 ∧
    ∃ tr : List (Ev Int Int Nat),
      dispatch storeW "increment" (5 : Int)
          = .ok (setState storeW "counter" (incr 0 5), tr, none) ∧
      countReplace "counter" tr = 1 ∧
      replacedStates "counter" tr = [incr 0 5] ∧
      countNotify "counter" tr = 1 :=
  ⟨rfl, rfl, simple_dispatch_spec storeW "increment" "counter" incr 0 5 rfl rfl⟩

/-- C2: for a 3-step `Async` reaction, the dispatch trace publishes the
`startup` result — one replacement followed by one notification — strictly
before the `effect` invocation event, no `completion`-step replacement occurs
during dispatch (completion never runs before the effect invokes
`complete(result)`), and applying the returned `complete` continuation with
`result` publishes `completion(currentState, result)` with one
notification. -/
theorem async_dispatch_spec (σ : Store S P R E) (a e : String)
    (su : S → P → S) (eff : E) (comp : S → R → S) (s : S) (p : P)
    (hr : σ.registry.lookup a = some (e, .Async (some su) eff comp))
    (hs : σ.states.lookup e = some s) :
    ∃ (tr : List (Ev S P E)) (cont : Pending S R),
      dispatch σ a p = .ok (setState σ e (su s p), tr, some cont) ∧
      tr = [.replace e .startup (su s p), .notify e, .effectInvoked eff p] ∧
      (∀ s' : S, Ev.replace (P := P) (E := E) e StepKind.completion s' ∉ tr) ∧
      (∀ (σ₂ : Store S P R E) (s₂ : S) (r : R),
        σ₂.states.lookup e = some s₂ →
        completeRun σ₂ cont r
          = (setState σ₂ e (comp s₂ r),
             [.replace e .completion (comp s₂ r), .notify e])) := by
  refine ⟨_, ⟨e, comp⟩, ?_, rfl, ?_, ?_⟩
  · simp [dispatch, hr, hs]
  · intro s'
    simp
  · intro σ₂ s₂ r h₂
    simp [completeRun, h₂]

/-- Witness for C2, at the concrete async `login` action of `storeW`. -/
theorem async_dispatch_spec_witness :
    storeW.registry.lookup "login"
        = some ("session", .Async (some loginStartup) 0 loginCompletion) ∧
    storeW.states.lookup "session" = some 0 ∧
    ∃ (tr : List (Ev Int Int Nat)) (cont : Pending Int Int),
      dispatch storeW "login" (1 : Int)
          = .ok (setState storeW "session" (loginStartup 0 1), tr, some cont) ∧
      tr = [.replace "session" .startup (loginStartup 0 1), .notify "session",
            .effectInvoked 0 1] ∧
      (∀ s' : Int,
        Ev.replace (P := Int) (E := Nat) "session" StepKind.completion s' ∉ tr) ∧
      (∀ (σ₂ : Store Int Int Int Nat) (s₂ : Int) (r : Int),
        σ₂.states.lookup "session" = some s₂ →
        completeRun σ₂ cont r
          = (setState σ₂ "session" (loginCompletion s₂ r),
             [.replace "session" .completion (loginCompletion s₂ r),
              .notify "session"])) :=
  ⟨rfl, rfl,
    async_dispatch_spec storeW "login" "session" loginStartup 0 loginCompletion
      0 1 rfl rfl⟩

/-- C3: Store construction from an entity set succeeds whenever all action
names are unique across the declared entities, and fails with
`DuplicateActionError` identifying a conflicting action name (one occurring
at least twice) whenever entities declare the same action name. -/
theorem construct_unique_actions (entities : List (String × Entity S P R E)) :
    ((allActionNames entities).Nodup →
      construct entities
        = .ok { states := entities.map fun ne => (ne.1, ne.2.init)
                registry := buildRegistry entities }) ∧
    (¬ (allActionNames entities).Nodup →
      ∃ a, construct entities = .error (.duplicateAction a) ∧
        1 < (allActionNames entities).count a) := by
  constructor
  · intro h
    simp [construct, findDuplicate_eq_none_of_nodup h]
  · intro h
    obtain ⟨a, hfd, hc⟩ := findDuplicate_of_not_nodup h
    exact ⟨a, by simp [construct, hfd], hc⟩

/-- Witness for C3, at the concrete entity set where two entities declare the
action `save` (spec §8 Scenario C). -/
theorem construct_unique_actions_witness :
    ¬ (allActionNames dupEntities).Nodup ∧
    ∃ a, construct dupEntities = .error (.duplicateAction a) ∧
      1 < (allActionNames dupEntities).count a :=
  ⟨by decide, (construct_unique_actions dupEntities).2 (by decide)⟩

/-- C4: for every Store and every action name absent from the action
registry, `dispatch(actionName, payload)` fails with `UnknownActionError` and
leaves the state of every entity unchanged. -/
theorem dispatch_unknown_action (σ : Store S P R E) (a : String) (p : P)
    (h : σ.registry.lookup a = none) :
    dispatch (R := R) σ a p = .error (.unknownAction a) ∧
    stateAfterDispatch (R := R) σ a p = σ ∧
    ∀ e, getState (stateAfterDispatch (R := R) σ a p) e = getState σ e := by
  have hd : dispatch (R := R) σ a p = .error (.unknownAction a) := by
    simp [dispatch, h]
  refine ⟨hd, ?_, ?_⟩ <;> simp [stateAfterDispatch, hd, getState]

/-- Witness for C4, dispatching the unregistered action name `nope` against
`storeW`. -/
theorem dispatch_unknown_action_witness :
    storeW.registry.lookup "nope" = none ∧
    (dispatch storeW "nope" (3 : Int)
        = .error (.unknownAction "nope") ∧
      stateAfterDispatch storeW "nope" (3 : Int) = storeW ∧
      ∀ e, getState (stateAfterDispatch storeW "nope" (3 : Int)) e
        = getState storeW e) :=
  ⟨rfl, dispatch_unknown_action storeW "nope" 3 rfl⟩

end ReactorLib
